import Mathlib

/-!
Shallow embedding of the CursorClone build-automation scripts.

Two build managers exist in the repository:
* `CmdScript` embeds src/unnamed/part_000 — the command-driven manager
  (positional command `sync | install | build | package | archive | test |
  validate | all | help`).
* `FlagScript` embeds src/build-cursorclone.js — the flag-driven manager
  whose `run` always validates branding first and then runs the whole
  pipeline.
* `Branding` embeds src/validate-branding-clean.cjs.

External effects are modelled by an explicit environment `Env`: `exec`
gives the behaviour of `execSync` on each command string (ok output or a
thrown error message), `fileExists` models `fs.existsSync`, `productJson`
the parsed `product.json` object, `now` the `Date.now()` stamp used for
the backup branch and `version` the `package.json` version.  The value of
a step is a pair: the list of commands actually spawned (in order, the
`rootDir` prefix on paths is omitted uniformly) and an `Except` whose
`error` constructor embeds a thrown JavaScript exception.
-/

/-- Environment: the external world a build run interacts with. -/
structure Env where
  exec : String → Except String String
  fileExists : String → Bool
  productJson : String → Option String
  now : String
  version : String

/-- The PLATFORMS constant of both scripts: supported archs per platform. -/
def PLATFORMS : String → Option (List String)
  | "darwin" => some ["x64", "arm64"]
  | "linux" => some ["x64", "arm64"]
  | "win32" => some ["x64", "arm64"]
  | _ => none

/-- The guard of packageApplication: platform is a PLATFORMS key and the
arch is in its list. -/
def supportedTarget (platform arch : String) : Bool :=
  match PLATFORMS platform with
  | some archs => archs.contains arch
  | none => false

/-- Whether a step outcome counts as a success (the StepResult.succeeded
of the spec: ok means exit code 0, error means a thrown SubprocessError). -/
def succeeded {α : Type} : Except String α → Bool
  | Except.ok _ => true
  | Except.error _ => false

/-- Sequencing of two awaited calls: a thrown error in the first call
propagates, skipping the continuation (JavaScript try/await semantics). -/
def andThen {α β : Type} (p : List String × Except String α)
    (f : List String → List String × Except String β) :
    List String × Except String β :=
  match p with
  | (tr, Except.ok _) => f tr
  | (tr, Except.error e) => (tr, Except.error e)

namespace CmdScript

/-- Configuration captured by the constructor of src/unnamed/part_000
from process.argv. -/
structure Config where
  skipSync : Bool
  targetPlatform : String
  targetArch : String

/-- The execCommand method: spawns the command via execSync (recorded in
the trace) and either returns its output or logs and rethrows the error. -/
def execCommand (env : Env) (tr : List String) (cmd : String) :
    List String × Except String String :=
  (tr ++ [cmd], env.exec cmd)

/-- Runs a list of commands in order through execCommand, stopping at the
first thrown error (each call is a statement of the JS method body). -/
def runCmds (env : Env) : List String → List String → List String × Except String Unit
  | tr, [] => (tr, Except.ok ())
  | tr, c :: cs =>
    match execCommand env tr c with
    | (tr1, Except.ok _) => runCmds env tr1 cs
    | (tr1, Except.error e) => (tr1, Except.error e)

/-- The syncWithUpstream method: early return when skipSync; otherwise
fetch, read the current branch, create a backup branch, return to the
current branch and merge upstream/main.  The catch block only logs before
rethrowing, so errors propagate unchanged. -/
def syncWithUpstream (cfg : Config) (env : Env) (tr : List String) :
    List String × Except String Unit :=
  if cfg.skipSync then (tr, Except.ok ())
  else
    match execCommand env tr "git fetch upstream" with
    | (tr1, Except.error e) => (tr1, Except.error e)
    | (tr1, Except.ok _) =>
      match execCommand env tr1 "git branch --show-current" with
      | (tr2, Except.error e) => (tr2, Except.error e)
      | (tr2, Except.ok out) =>
        runCmds env tr2
          ["git checkout -b backup-" ++ env.now,
           "git checkout " ++ out.trim,
           "git merge upstream/main --no-edit"]

/-- The installDependencies method. -/
def installDependencies (env : Env) (tr : List String) :
    List String × Except String Unit :=
  runCmds env tr ["npm install"]

/-- The buildCursorClone method of part_000 (clean, compile, extensions,
builtin extensions). -/
def buildCursorClone (env : Env) (tr : List String) :
    List String × Except String Unit :=
  runCmds env tr
    ["npm run clean", "npm run compile", "npm run compile-extensions",
     "npm run download-builtin-extensions"]

/-- The packageApplication method: on an unsupported platform/arch pair it
logs an error and returns without spawning anything; otherwise it runs the
platform-specific gulp task. -/
def packageApplication (cfg : Config) (env : Env) (tr : List String) :
    List String × Except String Unit :=
  if supportedTarget cfg.targetPlatform cfg.targetArch then
    if cfg.targetPlatform = "darwin" then
      runCmds env tr ["npm run gulp -- vscode-darwin-" ++ cfg.targetArch]
    else if cfg.targetPlatform = "linux" then
      runCmds env tr ["npm run gulp -- vscode-linux-" ++ cfg.targetArch]
    else if cfg.targetPlatform = "win32" then
      runCmds env tr ["npm run gulp -- vscode-win32-" ++ cfg.targetArch]
    else (tr, Except.ok ())
  else (tr, Except.ok ())

/-- The archive name and source directory (as parent and basename under
.build) chosen by createArchive, lines 164-176 of part_000; none when the
platform matches no branch (archiveName and sourceDir stay undefined). -/
def archiveInfo (cfg : Config) (version : String) :
    Option (String × String × String) :=
  if cfg.targetPlatform = "darwin" then
    some ("CursorClone-" ++ version ++ "-darwin-" ++ cfg.targetArch ++ ".zip",
          ".build", "VSCode-darwin")
  else if cfg.targetPlatform = "linux" then
    some ("CursorClone-" ++ version ++ "-linux-" ++ cfg.targetArch ++ ".tar.gz",
          ".build", "VSCode-linux-x64")
  else if cfg.targetPlatform = "win32" then
    some ("CursorClone-" ++ version ++ "-win32-" ++ cfg.targetArch ++ ".zip",
          ".build", "VSCode-win32-x64")
  else none

/-- The createArchive method: when the chosen source directory exists it
runs tar (linux) or zip (otherwise); when it does not exist it only logs
an error and returns normally. -/
def createArchive (cfg : Config) (env : Env) (tr : List String) :
    List String × Except String Unit :=
  match archiveInfo cfg env.version with
  | none => (tr, Except.ok ())
  | some (archiveName, parent, base) =>
    if env.fileExists (parent ++ "/" ++ base) then
      if cfg.targetPlatform = "linux" then
        runCmds env tr
          ["tar -czf \"releases/" ++ archiveName ++ "\" -C \"" ++ parent ++
           "\" \"" ++ base ++ "\""]
      else
        runCmds env tr
          ["cd \"" ++ parent ++ "\" && zip -r \"releases/" ++ archiveName ++
           "\" \"" ++ base ++ "\""]
    else (tr, Except.ok ())

/-- The runTests method. -/
def runTests (env : Env) (tr : List String) : List String × Except String Unit :=
  runCmds env tr ["npm test"]

/-- The validateBuild method of part_000: checks the three required files
exist, then that product.json applicationName is cursorclone; returns a
boolean and never spawns a subprocess. -/
def validateBuild (env : Env) (tr : List String) :
    List String × Except String Bool :=
  if env.fileExists "package.json" then
    if env.fileExists "product.json" then
      if env.fileExists ".build" then
        if env.productJson "applicationName" = some "cursorclone" then
          (tr, Except.ok true)
        else (tr, Except.ok false)
      else (tr, Except.ok false)
    else (tr, Except.ok false)
  else (tr, Except.ok false)

/-- The all branch of run: the six steps awaited in order; a thrown error
aborts the remaining steps.  The boolean result of validateBuild is
discarded, exactly as the source ignores it. -/
def runAll (cfg : Config) (env : Env) : List String × Except String Unit :=
  andThen (syncWithUpstream cfg env []) fun tr1 =>
  andThen (installDependencies env tr1) fun tr2 =>
  andThen (buildCursorClone env tr2) fun tr3 =>
  andThen (packageApplication cfg env tr3) fun tr4 =>
  andThen (createArchive cfg env tr4) fun tr5 =>
  andThen (validateBuild env tr5) fun tr6 => (tr6, Except.ok ())

/-- The switch statement of run: dispatch on the positional command (the
default and help cases do nothing). -/
def dispatch (command : String) (cfg : Config) (env : Env) :
    List String × Except String Unit :=
  match command with
  | "sync" => syncWithUpstream cfg env []
  | "install" => installDependencies env []
  | "build" => buildCursorClone env []
  | "package" => packageApplication cfg env []
  | "archive" => createArchive cfg env []
  | "test" => runTests env []
  | "validate" => andThen (validateBuild env []) fun tr => (tr, Except.ok ())
  | "all" => runAll cfg env
  | _ => ([], Except.ok ())

/-- The run method: any error thrown by a step is caught, logged and turned
into process.exit(1); otherwise the process ends with exit code 0. -/
def run (command : String) (cfg : Config) (env : Env) : List String × Nat :=
  match dispatch command cfg env with
  | (tr, Except.ok _) => (tr, 0)
  | (tr, Except.error _) => (tr, 1)

end CmdScript

namespace FlagScript

/-- Configuration captured by the constructor of src/build-cursorclone.js
from process.argv (this variant also honours a release flag). -/
structure Config where
  skipSync : Bool
  release : Bool
  targetPlatform : String
  targetArch : String

/-- The execCommand method of build-cursorclone.js: identical semantics to
the part_000 one (spawn, return output, or log and rethrow). -/
def execCommand (env : Env) (tr : List String) (cmd : String) :
    List String × Except String String :=
  (tr ++ [cmd], env.exec cmd)

/-- Sequential execution of a command list, stopping at the first thrown
error. -/
def runCmds (env : Env) : List String → List String → List String × Except String Unit
  | tr, [] => (tr, Except.ok ())
  | tr, c :: cs =>
    match execCommand env tr c with
    | (tr1, Except.ok _) => runCmds env tr1 cs
    | (tr1, Except.error e) => (tr1, Except.error e)

/-- The syncWithUpstream method (identical to the part_000 one). -/
def syncWithUpstream (cfg : Config) (env : Env) (tr : List String) :
    List String × Except String Unit :=
  if cfg.skipSync then (tr, Except.ok ())
  else
    match execCommand env tr "git fetch upstream" with
    | (tr1, Except.error e) => (tr1, Except.error e)
    | (tr1, Except.ok _) =>
      match execCommand env tr1 "git branch --show-current" with
      | (tr2, Except.error e) => (tr2, Except.error e)
      | (tr2, Except.ok out) =>
        runCmds env tr2
          ["git checkout -b backup-" ++ env.now,
           "git checkout " ++ out.trim,
           "git merge upstream/main --no-edit"]

/-- The installDependencies method. -/
def installDependencies (env : Env) (tr : List String) :
    List String × Except String Unit :=
  runCmds env tr ["npm install"]

/-- The buildCursorClone method of build-cursorclone.js (three commands,
no builtin-extension download in this variant). -/
def buildCursorClone (env : Env) (tr : List String) :
    List String × Except String Unit :=
  runCmds env tr
    ["npm run clean", "npm run compile", "npm run compile-extensions"]

/-- The packageForPlatform method: one gulp task per platform/arch pair,
failures logged and rethrown. -/
def packageForPlatform (env : Env) (tr : List String) (platform arch : String) :
    List String × Except String Unit :=
  runCmds env tr ["npx gulp vscode-" ++ platform ++ "-" ++ arch]

/-- The inner arch loop of packageAll. -/
def packageArchs (env : Env) (platform : String) :
    List String → List String → List String × Except String Unit
  | tr, [] => (tr, Except.ok ())
  | tr, a :: as =>
    match packageForPlatform env tr platform a with
    | (tr1, Except.ok _) => packageArchs env platform tr1 as
    | (tr1, Except.error e) => (tr1, Except.error e)

/-- The outer platform loop of packageAll; iterating the archs of a
platform missing from PLATFORMS throws a TypeError in the source. -/
def packagePlatforms (cfg : Config) (env : Env) :
    List String → List String → List String × Except String Unit
  | tr, [] => (tr, Except.ok ())
  | tr, p :: ps =>
    match (if cfg.targetArch ≠ "" then some [cfg.targetArch] else PLATFORMS p) with
    | none => (tr, Except.error "TypeError: PLATFORMS[platform] is not iterable")
    | some archs =>
      match packageArchs env p tr archs with
      | (tr1, Except.ok _) => packagePlatforms cfg env tr1 ps
      | (tr1, Except.error e) => (tr1, Except.error e)

/-- The packageAll method: with both a platform and an arch configured (a
JavaScript truthiness test, empty string being falsy) it packages that one
pair; otherwise it loops over the selected platforms and archs. -/
def packageAll (cfg : Config) (env : Env) (tr : List String) :
    List String × Except String Unit :=
  if cfg.targetPlatform ≠ "" ∧ cfg.targetArch ≠ "" then
    packageForPlatform env tr cfg.targetPlatform cfg.targetArch
  else
    packagePlatforms cfg env tr
      (if cfg.targetPlatform ≠ "" then [cfg.targetPlatform]
       else ["darwin", "linux", "win32"])

/-- The createRelease method: the failure of the tag command is downgraded to a
warning (its result is discarded), then the push command runs. -/
def createRelease (env : Env) (tr : List String) :
    List String × Except String Unit :=
  runCmds env
    (execCommand env tr
      ("git tag -a v" ++ env.version ++ " -m \"Release " ++ env.version ++ "\"")).1
    ["git push origin main --tags"]

/-- The validateBuild method of build-cursorclone.js: reads product.json
(a missing file makes readFileSync throw) and throws on a nameShort or
applicationName branding mismatch; spawns no subprocess. -/
def validateBuild (env : Env) : Except String Unit :=
  if env.fileExists "product.json" then
    if env.productJson "nameShort" ≠ some "CursorClone" then
      Except.error "Product name is not correctly set to CursorClone"
    else if env.productJson "applicationName" ≠ some "cursorclone" then
      Except.error "Application name is not correctly set to cursorclone"
    else Except.ok ()
  else Except.error "ENOENT: no such file or directory, open product.json"

/-- The run method of build-cursorclone.js: validateBuild first, then
sync, install, build, packageAll, then optionally createRelease; any
thrown error is caught and turned into process.exit(1). -/
def run (cfg : Config) (env : Env) : List String × Nat :=
  let result : List String × Except String Unit :=
    match validateBuild env with
    | Except.error e => ([], Except.error e)
    | Except.ok _ =>
      andThen (syncWithUpstream cfg env []) fun tr1 =>
      andThen (installDependencies env tr1) fun tr2 =>
      andThen (buildCursorClone env tr2) fun tr3 =>
      andThen (packageAll cfg env tr3) fun tr4 =>
      if cfg.release then createRelease env tr4 else (tr4, Except.ok ())
  match result with
  | (tr, Except.ok _) => (tr, 0)
  | (tr, Except.error _) => (tr, 1)

end FlagScript

namespace Branding

/-- The expectedValues table of validateProductJson in
src/validate-branding-clean.cjs, in its iteration order. -/
def expectedProductValues : List (String × String) :=
  [("nameShort", "CursorClone"),
   ("applicationName", "cursorclone"),
   ("dataFolderName", ".cursorclone"),
   ("serverDataFolderName", ".cursorclone-server")]

/-- How a JSON field value prints inside a template literal: a missing
field prints as undefined. -/
def optionToDisplay : Option String → String
  | some v => v
  | none => "undefined"

/-- The for-of loop of validateProductJson: one log line per expected
entry (flagged true when it is an error line), and the conjunction of all
per-field checks. -/
def checkEntries (product : String → Option String) :
    List (String × String) → Bool × List (Bool × String)
  | [] => (true, [])
  | (key, expected) :: rest =>
    let here : Bool × (Bool × String) :=
      if product key = some expected then
        (true, (false, "product.json " ++ key ++ ": correct"))
      else
        (false,
         (true, "product.json " ++ key ++ ": expected \x27" ++ expected ++
          "\x27, got \x27" ++ optionToDisplay (product key) ++ "\x27"))
    let restResult := checkEntries product rest
    (here.1 && restResult.1, here.2 :: restResult.2)

/-- The validateProductJson function: false with an error line when the
file is missing, otherwise the per-field check over expectedValues (the
parsed object is given as a lookup function). -/
def validateProductJson (productExists : Bool)
    (product : String → Option String) : Bool × List (Bool × String) :=
  if productExists then checkEntries product expectedProductValues
  else (false, [(true, "product.json not found")])

end Branding

/-!
Helper lemmas.  `ExecSpec env tr p` says of a step result `p` started with
trace `tr`: if the step succeeded then every spawned command (beyond `tr`)
had a succeeding executor outcome, and if it threw then some spawned
command failed.  This is the invariant connecting the exit code of `run`
to the behaviour of the individual subprocesses.
-/

def ExecSpec {α : Type} (env : Env) (tr : List String)
    (p : List String × Except String α) : Prop :=
  (succeeded p.2 = true → ∀ c ∈ p.1, c ∈ tr ∨ succeeded (env.exec c) = true) ∧
  (succeeded p.2 = false → ∃ c ∈ p.1, succeeded (env.exec c) = false)

theorem execSpec_pure {α : Type} (env : Env) (tr : List String) (a : α) :
    ExecSpec env tr (tr, Except.ok a) := by
  constructor
  · intro _ c hc
    exact Or.inl hc
  · intro h
    simp [succeeded] at h

theorem execSpec_fail {α : Type} (env : Env) (tr : List String) (c e : String)
    (h : env.exec c = Except.error e) :
    ExecSpec env tr (tr ++ [c], (Except.error e : Except String α)) := by
  constructor
  · intro hok
    simp [succeeded] at hok
  · intro _
    exact ⟨c, by simp, by simp [succeeded, h]⟩

theorem execSpec_mono {α : Type} {env : Env} {tr1 tr2 : List String}
    {p : List String × Except String α} (h : ExecSpec env tr2 p)
    (hsub : ∀ c ∈ tr2, c ∈ tr1 ∨ succeeded (env.exec c) = true) :
    ExecSpec env tr1 p := by
  constructor
  · intro hok c hc
    rcases h.1 hok c hc with h1 | h1
    · exact hsub c h1
    · exact Or.inr h1
  · exact h.2

theorem andThen_spec {α β : Type} {env : Env} {tr : List String}
    {p : List String × Except String α}
    {f : List String → List String × Except String β}
    (hp : ExecSpec env tr p) (hf : ExecSpec env p.1 (f p.1)) :
    ExecSpec env tr (andThen p f) := by
  rcases p with ⟨t, r⟩
  cases r with
  | error e => exact hp
  | ok a =>
    have hsub : ∀ c ∈ t, c ∈ tr ∨ succeeded (env.exec c) = true :=
      hp.1 (by simp [succeeded])
    exact execSpec_mono hf hsub

namespace CmdScript

theorem runCmds_spec (env : Env) (cs : List String) :
    ∀ tr : List String, ExecSpec env tr (runCmds env tr cs) := by
  induction cs with
  | nil => intro tr; exact execSpec_pure env tr ()
  | cons c cs ih =>
    intro tr
    cases h : env.exec c with
    | ok v =>
      have heq : runCmds env tr (c :: cs) = runCmds env (tr ++ [c]) cs := by
        simp [runCmds, execCommand, h]
      rw [heq]
      refine execSpec_mono (ih (tr ++ [c])) ?_
      intro d hd
      rcases List.mem_append.1 hd with h1 | h1
      · exact Or.inl h1
      · simp only [List.mem_singleton] at h1
        subst h1
        exact Or.inr (by simp [succeeded, h])
    | error e =>
      have heq : runCmds env tr (c :: cs) = (tr ++ [c], Except.error e) := by
        simp [runCmds, execCommand, h]
      rw [heq]
      exact execSpec_fail env tr c e h

theorem syncWithUpstream_spec (cfg : Config) (env : Env) (tr : List String) :
    ExecSpec env tr (syncWithUpstream cfg env tr) := by
  unfold syncWithUpstream
  split
  · exact execSpec_pure env tr ()
  · cases h1 : env.exec "git fetch upstream" with
    | error e =>
      simp only [execCommand, h1]
      exact execSpec_fail env tr _ e h1
    | ok o1 =>
      simp only [execCommand, h1]
      cases h2 : env.exec "git branch --show-current" with
      | error e =>
        simp only [h2]
        refine execSpec_mono (execSpec_fail env (tr ++ ["git fetch upstream"]) _ e h2) ?_
        intro d hd
        rcases List.mem_append.1 hd with hmem | hmem
        · exact Or.inl hmem
        · simp only [List.mem_singleton] at hmem
          subst hmem
          exact Or.inr (by simp [succeeded, h1])
      | ok o2 =>
        simp only [h2]
        refine execSpec_mono (runCmds_spec env _ _) ?_
        intro d hd
        rcases List.mem_append.1 hd with hmem | hmem
        · rcases List.mem_append.1 hmem with hmem1 | hmem1
          · exact Or.inl hmem1
          · simp only [List.mem_singleton] at hmem1
            subst hmem1
            exact Or.inr (by simp [succeeded, h1])
        · simp only [List.mem_singleton] at hmem
          subst hmem
          exact Or.inr (by simp [succeeded, h2])

theorem installDependencies_spec (env : Env) (tr : List String) :
    ExecSpec env tr (installDependencies env tr) :=
  runCmds_spec env _ tr

theorem buildCursorClone_spec (env : Env) (tr : List String) :
    ExecSpec env tr (buildCursorClone env tr) :=
  runCmds_spec env _ tr

theorem packageApplication_spec (cfg : Config) (env : Env) (tr : List String) :
    ExecSpec env tr (packageApplication cfg env tr) := by
  unfold packageApplication
  repeat' split
  all_goals first
    | exact execSpec_pure env tr ()
    | exact runCmds_spec env _ tr

theorem createArchive_spec (cfg : Config) (env : Env) (tr : List String) :
    ExecSpec env tr (createArchive cfg env tr) := by
  unfold createArchive
  repeat' split
  all_goals first
    | exact execSpec_pure env tr ()
    | exact runCmds_spec env _ tr

theorem runTests_spec (env : Env) (tr : List String) :
    ExecSpec env tr (runTests env tr) :=
  runCmds_spec env _ tr

theorem validateBuild_spec (env : Env) (tr : List String) :
    ExecSpec env tr (validateBuild env tr) := by
  unfold validateBuild
  repeat' split
  all_goals exact execSpec_pure env tr _

theorem runAll_spec (cfg : Config) (env : Env) :
    ExecSpec env [] (runAll cfg env) := by
  unfold runAll
  refine andThen_spec (syncWithUpstream_spec cfg env []) ?_
  refine andThen_spec (installDependencies_spec env _) ?_
  refine andThen_spec (buildCursorClone_spec env _) ?_
  refine andThen_spec (packageApplication_spec cfg env _) ?_
  refine andThen_spec (createArchive_spec cfg env _) ?_
  refine andThen_spec (validateBuild_spec env _) ?_
  exact execSpec_pure env _ _

theorem dispatch_spec (command : String) (cfg : Config) (env : Env) :
    ExecSpec env [] (dispatch command cfg env) := by
  unfold dispatch
  split
  · exact syncWithUpstream_spec cfg env []
  · exact installDependencies_spec env []
  · exact buildCursorClone_spec env []
  · exact packageApplication_spec cfg env []
  · exact createArchive_spec cfg env []
  · exact runTests_spec env []
  · refine andThen_spec (validateBuild_spec env []) ?_
    exact execSpec_pure env _ _
  · exact runAll_spec cfg env
  · exact execSpec_pure env [] ()

end CmdScript

/-- Concrete environment for counterexamples: every subprocess succeeds,
every file exists, but product.json carries a wrong applicationName. -/
def envBadBranding : Env where
  exec := fun _ => Except.ok ""
  fileExists := fun _ => true
  productJson := fun _ => some "wrong"
  now := "0"
  version := "1.0.0"

/-- Concrete configuration: linux x64, sync enabled. -/
def cfgLinuxX64 : CmdScript.Config where
  skipSync := false
  targetPlatform := "linux"
  targetArch := "x64"

/-- C2, counterexample: in a full pipeline run where every subprocess
succeeds but product.json has applicationName set to a wrong value, the
validate step fails (validateBuild returns false, a non-skippable step
failure in the sense of the claim), yet the process exit code is 0, not 1: the
run method of part_000 discards the boolean result of validateBuild. -/
theorem C2_exit_code_claim_counterexample :
    (CmdScript.validateBuild envBadBranding []).2 = Except.ok false ∧
    (CmdScript.run "all" cfgLinuxX64 envBadBranding).2 = 0 := by
  constructor
  · rfl
  · rfl

/-- C2 (amended): the exit code of a pipeline run is 1 exactly when some
spawned subprocess command failed (a thrown SubprocessError reaching the
top-level catch); failures that do not throw — the archive step finding no
build directory, and the validate step finding a branding mismatch — are
only logged and leave the exit code 0. -/
theorem C2_exit_code_amended (command : String) (cfg : CmdScript.Config)
    (env : Env) :
    (CmdScript.run command cfg env).2 = 1 ↔
      ∃ c ∈ (CmdScript.run command cfg env).1,
        succeeded (env.exec c) = false := by
  have hspec := CmdScript.dispatch_spec command cfg env
  unfold CmdScript.run
  rcases hd : CmdScript.dispatch command cfg env with ⟨tr, r⟩
  rw [hd] at hspec
  cases r with
  | ok a =>
    simp only
    constructor
    · intro h
      exact absurd h (by simp)
    · rintro ⟨c, hc, hfail⟩
      rcases hspec.1 (by simp [succeeded]) c hc with h1 | h1
      · simp at h1
      · rw [h1] at hfail
        cases hfail
  | error e =>
    simp only
    constructor
    · intro _
      exact hspec.2 (by simp [succeeded])
    · intro _
      trivial

/-- C1: in an all run whose six steps are sync, install, build, package,
archive, validate, when the build step (step 3) fails — its first command
npm run clean throws — while sync and install succeed, the run executes
exactly steps 1 to 3: the trace is precisely the five sync commands, the
install command and the failing build command, no command of package or
archive is ever spawned and validate is never consulted, and the run exits
1 (marked failed). -/
theorem C1_build_step_failure_halts_pipeline (cfg : CmdScript.Config)
    (env : Env) (o1 o2 o3 o4 o5 o6 e : String)
    (hskip : cfg.skipSync = false)
    (h1 : env.exec "git fetch upstream" = Except.ok o1)
    (h2 : env.exec "git branch --show-current" = Except.ok o2)
    (h3 : env.exec ("git checkout -b backup-" ++ env.now) = Except.ok o3)
    (h4 : env.exec ("git checkout " ++ o2.trim) = Except.ok o4)
    (h5 : env.exec "git merge upstream/main --no-edit" = Except.ok o5)
    (h6 : env.exec "npm install" = Except.ok o6)
    (h7 : env.exec "npm run clean" = Except.error e) :
    CmdScript.run "all" cfg env =
      (["git fetch upstream", "git branch --show-current",
        "git checkout -b backup-" ++ env.now, "git checkout " ++ o2.trim,
        "git merge upstream/main --no-edit", "npm install",
        "npm run clean"], 1) := by
  simp [CmdScript.run, CmdScript.dispatch, CmdScript.runAll,
    CmdScript.syncWithUpstream, CmdScript.installDependencies,
    CmdScript.buildCursorClone, CmdScript.runCmds, CmdScript.execCommand,
    andThen, hskip, h1, h2, h3, h4, h5, h6, h7]

/-- Environment witnessing C1: every command succeeds except npm run
clean. -/
def envCleanFails : Env where
  exec := fun c => if c = "npm run clean" then Except.error "boom" else Except.ok ""
  fileExists := fun _ => true
  productJson := fun _ => some "cursorclone"
  now := "0"
  version := "1.0.0"

/-- Witness for C1 at a concrete configuration and environment. -/
theorem C1_build_step_failure_halts_pipeline_witness :
    CmdScript.run "all" cfgLinuxX64 envCleanFails =
      (["git fetch upstream", "git branch --show-current",
        "git checkout -b backup-" ++ envCleanFails.now,
        "git checkout " ++ "".trim,
        "git merge upstream/main --no-edit", "npm install",
        "npm run clean"], 1) :=
  C1_build_step_failure_halts_pipeline cfgLinuxX64 envCleanFails
    "" "" "" "" "" "" "boom" rfl rfl rfl rfl rfl rfl rfl rfl

/-- Concrete environment where every subprocess succeeds and every file
exists and product.json is correctly branded. -/
def envAllOk : Env where
  exec := fun _ => Except.ok ""
  fileExists := fun _ => true
  productJson := fun _ => some "cursorclone"
  now := "0"
  version := "1.0.0"

/-- Configuration with a platform outside the supported matrix. -/
def cfgUnsupported : CmdScript.Config where
  skipSync := false
  targetPlatform := "freebsd"
  targetArch := "x64"

/-- C3, counterexample: with target (freebsd, x64) — outside the supported
matrix — the full pipeline still runs sync, install and build subprocesses
(npm install is spawned) and exits 0: nothing fails at startup, no
ConfigError exists, and the unsupported pair is only skipped over at the
package step. -/
theorem C3_config_claim_counterexample :
    (CmdScript.run "all" cfgUnsupported envAllOk).2 = 0 ∧
    "npm install" ∈ (CmdScript.run "all" cfgUnsupported envAllOk).1 := by
  constructor
  · rfl
  · decide

/-- C3 (amended): construction performs no platform/arch validation, so
configuration never fails; the supported-matrix check happens only inside
the package step: an unsupported pair makes packageApplication log an
error and return without spawning anything and without failing the run,
while a supported pair runs exactly the matching gulp task. -/
theorem C3_unsupported_target_detected_at_package_step
    (cfg : CmdScript.Config) (env : Env) (tr : List String) :
    (supportedTarget cfg.targetPlatform cfg.targetArch = false →
      CmdScript.packageApplication cfg env tr = (tr, Except.ok ())) ∧
    (supportedTarget cfg.targetPlatform cfg.targetArch = true →
      CmdScript.packageApplication cfg env tr =
        CmdScript.runCmds env tr
          ["npm run gulp -- vscode-" ++ cfg.targetPlatform ++ "-" ++
           cfg.targetArch]) := by
  constructor
  · intro h
    simp [CmdScript.packageApplication, h]
  · intro h
    by_cases hd : cfg.targetPlatform = "darwin"
    · rw [hd] at h
      simp [CmdScript.packageApplication, h, hd]
    by_cases hl : cfg.targetPlatform = "linux"
    · rw [hl] at h
      simp [CmdScript.packageApplication, h, hd, hl]
    by_cases hw : cfg.targetPlatform = "win32"
    · rw [hw] at h
      simp [CmdScript.packageApplication, h, hd, hl, hw]
    exfalso
    have hnone : PLATFORMS cfg.targetPlatform = none := by
      unfold PLATFORMS
      split
      all_goals simp_all
    simp [supportedTarget, hnone] at h

/-- Witness for C3 (amended): the unsupported pair (freebsd, x64) is a
no-op at the package step, and the supported pair (linux, x64) runs its
gulp task. -/
theorem C3_unsupported_target_detected_at_package_step_witness :
    CmdScript.packageApplication cfgUnsupported envAllOk [] =
      ([], Except.ok ()) ∧
    CmdScript.packageApplication cfgLinuxX64 envAllOk [] =
      CmdScript.runCmds envAllOk []
        ["npm run gulp -- vscode-" ++ cfgLinuxX64.targetPlatform ++ "-" ++
         cfgLinuxX64.targetArch] :=
  ⟨(C3_unsupported_target_detected_at_package_step cfgUnsupported envAllOk []).1
      rfl,
   (C3_unsupported_target_detected_at_package_step cfgLinuxX64 envAllOk []).2
      rfl⟩

/-- Concrete environment where every subprocess fails. -/
def envExecFails : Env where
  exec := fun _ => Except.error "spawn failure"
  fileExists := fun _ => false
  productJson := fun _ => none
  now := "0"
  version := "1.0.0"

/-- C4, counterexample: execCommand does not convert a subprocess failure
into a failed result value — the error escapes its boundary: its result
embeds the thrown exception (Except.error), which the caller receives. -/
theorem C4_execCommand_throws_counterexample :
    CmdScript.execCommand envExecFails [] "npm install" =
      (["npm install"], Except.error "spawn failure") := rfl

/-- C4 (amended): execCommand records the spawn and rethrows the
error of the executor unchanged to its caller; the exception is converted only
at the top-level catch of run, which maps any step error to exit code 1 rather
than letting it propagate further. -/
theorem C4_execCommand_rethrows_and_run_catches :
    (∀ (env : Env) (tr : List String) (cmd e : String),
      env.exec cmd = Except.error e →
      CmdScript.execCommand env tr cmd = (tr ++ [cmd], Except.error e)) ∧
    (∀ (command : String) (cfg : CmdScript.Config) (env : Env)
       (tr : List String) (e : String),
      CmdScript.dispatch command cfg env = (tr, Except.error e) →
      CmdScript.run command cfg env = (tr, 1)) := by
  constructor
  · intro env tr cmd e h
    simp [CmdScript.execCommand, h]
  · intro command cfg env tr e h
    simp [CmdScript.run, h]

/-- Witness for C4 (amended) at concrete inputs: the failing npm test
spawn is rethrown, and the failure of the install command reaches run as exit
code 1. -/
theorem C4_execCommand_rethrows_and_run_catches_witness :
    CmdScript.execCommand envExecFails [] "npm test" =
      (["npm test"], Except.error "spawn failure") ∧
    CmdScript.run "install" cfgLinuxX64 envExecFails =
      (["npm install"], 1) :=
  ⟨C4_execCommand_rethrows_and_run_catches.1 envExecFails [] "npm test"
      "spawn failure" rfl,
   C4_execCommand_rethrows_and_run_catches.2 "install" cfgLinuxX64
      envExecFails ["npm install"] "spawn failure" rfl⟩

/-- C8: runStep/execCommand carries no hidden state: two invocations with
an identical command against unchanged external behaviour (the same
executor outcomes) yield results with the same succeeded value. -/
theorem C8_execCommand_repeat_same_succeeded (env1 env2 : Env)
    (tr1 tr2 : List String) (cmd : String) (h : env1.exec = env2.exec) :
    succeeded (CmdScript.execCommand env1 tr1 cmd).2 =
      succeeded (CmdScript.execCommand env2 tr2 cmd).2 := by
  simp [CmdScript.execCommand, h]

/-- Witness for C8: two successive invocations of npm install under the
same executor agree on succeeded. -/
theorem C8_execCommand_repeat_same_succeeded_witness :
    succeeded (CmdScript.execCommand envAllOk [] "npm install").2 =
      succeeded
        (CmdScript.execCommand envAllOk ["npm install"] "npm install").2 :=
  C8_execCommand_repeat_same_succeeded envAllOk envAllOk []
    ["npm install"] "npm install" rfl

/-- C9: the source directory of the archive step ignores the configured arch:
for linux it is always .build/VSCode-linux-x64 and for win32 always
.build/VSCode-win32-x64, whatever cfg.targetArch is; the arch appears
only in the archive file name. -/
theorem C9_archive_source_dir_ignores_arch (cfg : CmdScript.Config)
    (version : String) :
    (cfg.targetPlatform = "linux" →
      CmdScript.archiveInfo cfg version =
        some ("CursorClone-" ++ version ++ "-linux-" ++ cfg.targetArch ++
                ".tar.gz",
              ".build", "VSCode-linux-x64")) ∧
    (cfg.targetPlatform = "win32" →
      CmdScript.archiveInfo cfg version =
        some ("CursorClone-" ++ version ++ "-win32-" ++ cfg.targetArch ++
                ".zip",
              ".build", "VSCode-win32-x64")) := by
  constructor <;> intro h <;> simp [CmdScript.archiveInfo, h]

/-- Configuration for linux arm64. -/
def cfgLinuxArm64 : CmdScript.Config where
  skipSync := false
  targetPlatform := "linux"
  targetArch := "arm64"

/-- Configuration for win32 arm64. -/
def cfgWin32Arm64 : CmdScript.Config where
  skipSync := false
  targetPlatform := "win32"
  targetArch := "arm64"

/-- Witness for C9: even with arch arm64 the linux source directory is
VSCode-linux-x64 and the win32 one VSCode-win32-x64, while arm64 shows up
in the archive names. -/
theorem C9_archive_source_dir_ignores_arch_witness :
    CmdScript.archiveInfo cfgLinuxArm64 "1.0.0" =
      some ("CursorClone-" ++ "1.0.0" ++ "-linux-" ++
              cfgLinuxArm64.targetArch ++ ".tar.gz",
            ".build", "VSCode-linux-x64") ∧
    CmdScript.archiveInfo cfgWin32Arm64 "1.0.0" =
      some ("CursorClone-" ++ "1.0.0" ++ "-win32-" ++
              cfgWin32Arm64.targetArch ++ ".zip",
            ".build", "VSCode-win32-x64") :=
  ⟨(C9_archive_source_dir_ignores_arch cfgLinuxArm64 "1.0.0").1 rfl,
   (C9_archive_source_dir_ignores_arch cfgWin32Arm64 "1.0.0").2 rfl⟩

/-- C10: in the flag-driven build script, branding validation is the first
pipeline action: whenever the nameShort of product.json is not CursorClone or
its applicationName is not cursorclone, run throws before any step, exits
with code 1 and spawns no subprocess at all (empty trace) — sync, install,
build and package are never attempted. -/
theorem C10_branding_validation_runs_first (cfg : FlagScript.Config)
    (env : Env)
    (h : env.productJson "nameShort" ≠ some "CursorClone" ∨
         env.productJson "applicationName" ≠ some "cursorclone") :
    FlagScript.run cfg env = ([], 1) := by
  have hv : succeeded (FlagScript.validateBuild env) = false := by
    unfold FlagScript.validateBuild
    cases hfe : env.fileExists "product.json" with
    | false => simp [succeeded]
    | true =>
      rcases h with h | h
      · simp [h, succeeded]
      · by_cases hn : env.productJson "nameShort" = some "CursorClone"
        · simp [hn, h, succeeded]
        · simp [hn, succeeded]
  unfold FlagScript.run
  cases hval : FlagScript.validateBuild env with
  | error e => simp [hval]
  | ok u =>
    rw [hval] at hv
    simp [succeeded] at hv

/-- Flag-driven configuration for witnesses. -/
def cfgFlag : FlagScript.Config where
  skipSync := false
  release := false
  targetPlatform := "linux"
  targetArch := "x64"

/-- Witness for C10: a product.json whose every field reads wrong makes
the flag-driven run exit 1 with no subprocess spawned. -/
theorem C10_branding_validation_runs_first_witness :
    FlagScript.run cfgFlag envBadBranding = ([], 1) :=
  C10_branding_validation_runs_first cfgFlag envBadBranding
    (Or.inl (by simp [envBadBranding]))

/-- C6: with the skip-sync flag, the sync step returns immediately: it
spawns no subprocess (the trace is unchanged) and succeeds, and the all
pipeline is literally the pipeline that starts directly at the install
step. -/
theorem C6_skip_sync_spawns_no_subprocess (cfg : CmdScript.Config)
    (env : Env) (tr : List String) (h : cfg.skipSync = true) :
    CmdScript.syncWithUpstream cfg env tr = (tr, Except.ok ()) ∧
    CmdScript.runAll cfg env =
      (andThen (CmdScript.installDependencies env []) fun tr2 =>
       andThen (CmdScript.buildCursorClone env tr2) fun tr3 =>
       andThen (CmdScript.packageApplication cfg env tr3) fun tr4 =>
       andThen (CmdScript.createArchive cfg env tr4) fun tr5 =>
       andThen (CmdScript.validateBuild env tr5) fun tr6 =>
         (tr6, Except.ok ())) := by
  constructor
  · simp [CmdScript.syncWithUpstream, h]
  · simp [CmdScript.runAll, CmdScript.syncWithUpstream, h, andThen]

/-- Configuration with skip-sync set. -/
def cfgSkipSync : CmdScript.Config where
  skipSync := true
  targetPlatform := "linux"
  targetArch := "x64"

/-- Witness for C6 at a concrete skip-sync configuration. -/
theorem C6_skip_sync_spawns_no_subprocess_witness :
    CmdScript.syncWithUpstream cfgSkipSync envAllOk [] =
      ([], Except.ok ()) ∧
    CmdScript.runAll cfgSkipSync envAllOk =
      (andThen (CmdScript.installDependencies envAllOk []) fun tr2 =>
       andThen (CmdScript.buildCursorClone envAllOk tr2) fun tr3 =>
       andThen (CmdScript.packageApplication cfgSkipSync envAllOk tr3) fun tr4 =>
       andThen (CmdScript.createArchive cfgSkipSync envAllOk tr4) fun tr5 =>
       andThen (CmdScript.validateBuild envAllOk tr5) fun tr6 =>
         (tr6, Except.ok ())) :=
  C6_skip_sync_spawns_no_subprocess cfgSkipSync envAllOk [] rfl

/-- Per-field check: a mismatched expected entry forces checkEntries to
report invalid. -/
theorem checkEntries_mismatch_invalid (product : String → Option String)
    (entries : List (String × String)) (key expected : String)
    (hmem : (key, expected) ∈ entries) (hne : product key ≠ some expected) :
    (Branding.checkEntries product entries).1 = false := by
  induction entries with
  | nil => simp at hmem
  | cons kv rest ih =>
    rcases kv with ⟨k, v⟩
    rcases List.mem_cons.1 hmem with heq | hmem2
    · injection heq with hk hv
      subst hk
      subst hv
      simp [Branding.checkEntries, hne]
    · simp [Branding.checkEntries, ih hmem2]

/-- Per-field check: a mismatched expected entry makes checkEntries emit
the error log line naming the field and both values. -/
theorem checkEntries_mismatch_logged (product : String → Option String)
    (entries : List (String × String)) (key expected : String)
    (hmem : (key, expected) ∈ entries) (hne : product key ≠ some expected) :
    (true, "product.json " ++ key ++ ": expected \x27" ++ expected ++
      "\x27, got \x27" ++ Branding.optionToDisplay (product key) ++ "\x27")
      ∈ (Branding.checkEntries product entries).2 := by
  induction entries with
  | nil => simp at hmem
  | cons kv rest ih =>
    rcases kv with ⟨k, v⟩
    rcases List.mem_cons.1 hmem with heq | hmem2
    · injection heq with hk hv
      subst hk
      subst hv
      simp [Branding.checkEntries, hne]
    · simp only [Branding.checkEntries, List.mem_cons]
      exact Or.inr (ih hmem2)

namespace CmdScript

/-- Two environments with the same executor run command lists
identically. -/
theorem runCmds_congr (env1 env2 : Env) (hexec : env1.exec = env2.exec)
    (cs : List String) :
    ∀ tr : List String, runCmds env1 tr cs = runCmds env2 tr cs := by
  induction cs with
  | nil => intro tr; rfl
  | cons c cs ih =>
    intro tr
    simp only [runCmds, execCommand, hexec]
    cases env2.exec c with
    | ok v => exact ih (tr ++ [c])
    | error e => rfl

/-- The sync step does not read product.json: environments agreeing on
executor and clock run it identically. -/
theorem syncWithUpstream_congr (cfg : Config) (env1 env2 : Env)
    (hexec : env1.exec = env2.exec) (hnow : env1.now = env2.now)
    (tr : List String) :
    syncWithUpstream cfg env1 tr = syncWithUpstream cfg env2 tr := by
  simp only [syncWithUpstream, execCommand, hexec, hnow,
    runCmds_congr env1 env2 hexec]

/-- The package step does not read product.json. -/
theorem packageApplication_congr (cfg : Config) (env1 env2 : Env)
    (hexec : env1.exec = env2.exec) (tr : List String) :
    packageApplication cfg env1 tr = packageApplication cfg env2 tr := by
  simp only [packageApplication, runCmds_congr env1 env2 hexec]

/-- The archive step does not read product.json. -/
theorem createArchive_congr (cfg : Config) (env1 env2 : Env)
    (hexec : env1.exec = env2.exec)
    (hfs : env1.fileExists = env2.fileExists)
    (hver : env1.version = env2.version) (tr : List String) :
    createArchive cfg env1 tr = createArchive cfg env2 tr := by
  simp only [createArchive, archiveInfo, hfs, hver,
    runCmds_congr env1 env2 hexec]

end CmdScript

/-- C7: a branding field whose value differs from the expected literal
makes the validation report a failure naming that field together with its
expected and actual values (first conjunct), and product.json content
never influences — let alone halts — the sync, install, build, package or
archive steps (second conjunct): a mismatch is a validation failure only. -/
theorem C7_branding_mismatch_named_and_harmless_elsewhere :
    (∀ (product : String → Option String) (key expected : String),
      (key, expected) ∈ Branding.expectedProductValues →
      product key ≠ some expected →
      (Branding.validateProductJson true product).1 = false ∧
      (true, "product.json " ++ key ++ ": expected \x27" ++ expected ++
        "\x27, got \x27" ++ Branding.optionToDisplay (product key) ++ "\x27")
        ∈ (Branding.validateProductJson true product).2) ∧
    (∀ (env1 env2 : Env), env1.exec = env2.exec →
      env1.fileExists = env2.fileExists → env1.now = env2.now →
      env1.version = env2.version →
      ∀ (cfg : CmdScript.Config) (tr : List String),
      CmdScript.syncWithUpstream cfg env1 tr =
        CmdScript.syncWithUpstream cfg env2 tr ∧
      CmdScript.installDependencies env1 tr =
        CmdScript.installDependencies env2 tr ∧
      CmdScript.buildCursorClone env1 tr =
        CmdScript.buildCursorClone env2 tr ∧
      CmdScript.packageApplication cfg env1 tr =
        CmdScript.packageApplication cfg env2 tr ∧
      CmdScript.createArchive cfg env1 tr =
        CmdScript.createArchive cfg env2 tr) := by
  constructor
  · intro product key expected hmem hne
    refine ⟨?_, ?_⟩
    · simpa [Branding.validateProductJson] using
        checkEntries_mismatch_invalid product
          Branding.expectedProductValues key expected hmem hne
    · simpa [Branding.validateProductJson] using
        checkEntries_mismatch_logged product
          Branding.expectedProductValues key expected hmem hne
  · intro env1 env2 hexec hfs hnow hver cfg tr
    exact ⟨CmdScript.syncWithUpstream_congr cfg env1 env2 hexec hnow tr,
      CmdScript.runCmds_congr env1 env2 hexec _ tr,
      CmdScript.runCmds_congr env1 env2 hexec _ tr,
      CmdScript.packageApplication_congr cfg env1 env2 hexec tr,
      CmdScript.createArchive_congr cfg env1 env2 hexec hfs hver tr⟩

/-- A product.json whose fields all read Evil. -/
def productEvil : String → Option String := fun _ => some "Evil"

/-- Witness for C7: the Evil product.json is reported invalid with an
error line naming nameShort and both values, and the bad-branding and
good-branding environments (which differ only in product.json) run the
sync step identically. -/
theorem C7_branding_mismatch_named_and_harmless_elsewhere_witness :
    ((Branding.validateProductJson true productEvil).1 = false ∧
      (true,
        "product.json nameShort: expected \x27CursorClone\x27, got \x27Evil\x27")
        ∈ (Branding.validateProductJson true productEvil).2) ∧
    CmdScript.syncWithUpstream cfgLinuxX64 envBadBranding [] =
      CmdScript.syncWithUpstream cfgLinuxX64 envAllOk [] :=
  ⟨⟨(C7_branding_mismatch_named_and_harmless_elsewhere.1 productEvil
        "nameShort" "CursorClone" (by decide) (by decide)).1,
    (C7_branding_mismatch_named_and_harmless_elsewhere.1 productEvil
        "nameShort" "CursorClone" (by decide) (by decide)).2⟩,
   (C7_branding_mismatch_named_and_harmless_elsewhere.2 envBadBranding
      envAllOk rfl rfl rfl rfl cfgLinuxX64 []).1⟩

/-- C5: for target (linux, arm64) with the subprocess of every step succeeding
(and the build outputs and configuration files in place), the all command
executes exactly the six steps in the fixed order sync, install, build,
package, archive, validate — the trace lists the five sync commands, the
install command, the four build commands, the linux-arm64 gulp task and
the tar archive command, in that order — and the run exits with code 0. -/
theorem C5_full_pipeline_success (cfg : CmdScript.Config) (env : Env)
    (o1 o2 o3 o4 o5 o6 o7 o8 o9 o10 o11 o12 : String)
    (hskip : cfg.skipSync = false)
    (hp : cfg.targetPlatform = "linux")
    (ha : cfg.targetArch = "arm64")
    (h1 : env.exec "git fetch upstream" = Except.ok o1)
    (h2 : env.exec "git branch --show-current" = Except.ok o2)
    (h3 : env.exec ("git checkout -b backup-" ++ env.now) = Except.ok o3)
    (h4 : env.exec ("git checkout " ++ o2.trim) = Except.ok o4)
    (h5 : env.exec "git merge upstream/main --no-edit" = Except.ok o5)
    (h6 : env.exec "npm install" = Except.ok o6)
    (h7 : env.exec "npm run clean" = Except.ok o7)
    (h8 : env.exec "npm run compile" = Except.ok o8)
    (h9 : env.exec "npm run compile-extensions" = Except.ok o9)
    (h10 : env.exec "npm run download-builtin-extensions" = Except.ok o10)
    (h11 : env.exec "npm run gulp -- vscode-linux-arm64" = Except.ok o11)
    (hfs : env.fileExists ".build/VSCode-linux-x64" = true)
    (h12 : env.exec ("tar -czf \"releases/" ++
      ("CursorClone-" ++ env.version ++ "-linux-" ++ "arm64" ++ ".tar.gz") ++
      "\" -C \"" ++ ".build" ++ "\" \"" ++ "VSCode-linux-x64" ++ "\"") =
      Except.ok o12)
    (hf1 : env.fileExists "package.json" = true)
    (hf2 : env.fileExists "product.json" = true)
    (hf3 : env.fileExists ".build" = true)
    (hprod : env.productJson "applicationName" = some "cursorclone") :
    CmdScript.run "all" cfg env =
      (["git fetch upstream", "git branch --show-current",
        "git checkout -b backup-" ++ env.now, "git checkout " ++ o2.trim,
        "git merge upstream/main --no-edit", "npm install",
        "npm run clean", "npm run compile", "npm run compile-extensions",
        "npm run download-builtin-extensions",
        "npm run gulp -- vscode-linux-arm64",
        "tar -czf \"releases/" ++
          ("CursorClone-" ++ env.version ++ "-linux-" ++ "arm64" ++
           ".tar.gz") ++ "\" -C \"" ++ ".build" ++ "\" \"" ++
          "VSCode-linux-x64" ++ "\""], 0) := by
  simp [CmdScript.run, CmdScript.dispatch, CmdScript.runAll,
    CmdScript.syncWithUpstream, CmdScript.installDependencies,
    CmdScript.buildCursorClone, CmdScript.packageApplication,
    supportedTarget, PLATFORMS, CmdScript.createArchive,
    CmdScript.archiveInfo, CmdScript.validateBuild, CmdScript.runCmds,
    CmdScript.execCommand, andThen, hskip, hp, ha, h1, h2, h3, h4, h5, h6,
    h7, h8, h9, h10, h11, hfs, h12, hf1, hf2, hf3, hprod]

/-- Witness for C5: the all-success environment at target linux arm64
yields the twelve commands in the fixed order and exit code 0. -/
theorem C5_full_pipeline_success_witness :
    CmdScript.run "all" cfgLinuxArm64 envAllOk =
      (["git fetch upstream", "git branch --show-current",
        "git checkout -b backup-" ++ envAllOk.now,
        "git checkout " ++ "".trim,
        "git merge upstream/main --no-edit", "npm install",
        "npm run clean", "npm run compile", "npm run compile-extensions",
        "npm run download-builtin-extensions",
        "npm run gulp -- vscode-linux-arm64",
        "tar -czf \"releases/" ++
          ("CursorClone-" ++ envAllOk.version ++ "-linux-" ++ "arm64" ++
           ".tar.gz") ++ "\" -C \"" ++ ".build" ++ "\" \"" ++
          "VSCode-linux-x64" ++ "\""],
       0) :=
  C5_full_pipeline_success cfgLinuxArm64 envAllOk
    "" "" "" "" "" "" "" "" "" "" "" ""
    rfl rfl rfl rfl rfl rfl rfl rfl rfl rfl rfl rfl rfl rfl rfl rfl rfl
    rfl rfl rfl
